import Mathlib

/-!
Formal model of `electron-google-oauth2` (src/index.ts).

The coordinator class `ElectronGoogleOAuth2` orchestrates a Google OAuth2
authorization-code flow: it normalizes the requested scopes, builds the
authorization URL, supersedes any previous loopback listener before binding a
new one, parses the captured redirect URL's query string, exchanges the code
for tokens through an external `OAuth2Client`, and republishes that client's
token events.

Strings are modelled over `List Char` wherever the Node standard library
(`url.parse` / `querystring`) is involved, so that every definition reduces in
the kernel.  The model covers query strings without repeated keys (Node turns
repeated keys into arrays, which no theorem here exercises) and percent
escapes of single-byte code points (multi-byte UTF-8 reassembly is not
exercised by any theorem).
-/

namespace ElectronGoogleOAuth2

/-! ### Query-string parsing (Node `url.parse(u, true)` / `querystring.parse`) -/

/-- Hex digit value, accepting both cases, as `querystring.unescape` does. -/
def hexVal (c : Char) : Option Nat :=
  if c.toNat ≥ 48 ∧ c.toNat ≤ 57 then some (c.toNat - 48)
  else if c.toNat ≥ 65 ∧ c.toNat ≤ 70 then some (c.toNat - 55)
  else if c.toNat ≥ 97 ∧ c.toNat ≤ 102 then some (c.toNat - 87)
  else none

/-- Node `querystring.unescape`: `+` becomes a space, `%XX` decodes to the
byte `XX`; a malformed escape is kept literally. -/
def qsUnescape : List Char → List Char
  | [] => []
  | '+' :: rest => ' ' :: qsUnescape rest
  | '%' :: h1 :: h2 :: rest =>
    match hexVal h1, hexVal h2 with
    | some v1, some v2 => Char.ofNat (16 * v1 + v2) :: qsUnescape rest
    | _, _ => '%' :: qsUnescape (h1 :: h2 :: rest)
  | c :: rest => c :: qsUnescape rest

/-- Split a character list at every occurrence of `sep` (Node splits the query
string on `&`). -/
def splitOnSep (sep : Char) : List Char → List (List Char)
  | [] => [[]]
  | c :: rest =>
    if c = sep then [] :: splitOnSep sep rest
    else
      match splitOnSep sep rest with
      | [] => [[c]]
      | h :: t => (c :: h) :: t

/-- Split at the first occurrence of `sep`, reporting whether it occurred
(`querystring` splits each pair at the first `=`; `url.parse` splits the URL
at the first `?`). -/
def splitFirst (sep : Char) : List Char → List Char × Option (List Char)
  | [] => ([], none)
  | c :: rest =>
    if c = sep then ([], some rest)
    else
      let p := splitFirst sep rest
      (c :: p.1, p.2)

/-- One `key=value` pair of the query string; a part without `=` maps the key
    to the empty value, and an empty part is skipped. -/
def parsePair (part : List Char) : Option (String × String) :=
  if part = [] then none
  else
    let p := splitFirst '=' part
    some (String.mk (qsUnescape p.1), String.mk (qsUnescape (p.2.getD [])))

/-- Model of `url.parse(u, true).query`: the fragment (from the first `#`) is
discarded, the query string starts after the first `?`, and pairs are split on
`&`.  Queries with repeated keys (arrays in Node) are outside the model; a
lookup takes the first occurrence. -/
def parseQuery (u : String) : List (String × String) :=
  match splitFirst '?' (u.data.takeWhile (fun c => c != '#')) with
  | (_, none) => []
  | (_, some qs) => (splitOnSep '&' qs).filterMap parsePair

/-- JavaScript truthiness of an optional query value: `undefined` and the
empty string are falsy. -/
def truthy : Option String → Bool
  | none => false
  | some s => s != ""

/-! ### Redirect outcome (lines 138-152 of src/index.ts) -/

/-- Outcome of parsing the captured redirect URL:
`code` is the returned authorization code (line 151), `denied` is the
`throw new Error(parsed.query.error_description as string)` at line 140
(message is the empty string when `error_description` is absent, since
`new Error(undefined)` leaves the message empty), and `malformed` is the
`throw new Error('Unknown')` at line 142. -/
inductive RedirectOutcome
  | code (c : String)
  | denied (reason : String)
  | malformed
deriving DecidableEq, Repr

/-- Lines 138-152: `if (parsed.query.error) throw Error(error_description);
else if (!parsed.query.code) throw Error('Unknown'); return parsed.query.code`. -/
def extract (u : String) : RedirectOutcome :=
  let q := parseQuery u
  if truthy (q.lookup "error") then
    .denied ((q.lookup "error_description").getD "")
  else if !truthy (q.lookup "code") then
    .malformed
  else
    .code ((q.lookup "code").getD "")

/-! ### Scope normalization (constructor, lines 65-67) -/

/-- Lines 65-67 of the constructor:
`if (!scopes.includes('profile')) scopes.push('profile');
 if (!scopes.includes('email')) scopes.push('email');
 this.scopes = scopes;` — value-level semantics of the mutated array. -/
def normalizeScopes (scopes : List String) : List String :=
  let s1 := if scopes.contains "profile" then scopes else scopes ++ ["profile"]
  if s1.contains "email" then s1 else s1 ++ ["email"]

/-- A heap of JavaScript arrays of strings, addressed by reference.  JS
arrays are mutable heap objects, and `scopes.push` at lines 65-66 mutates the
array the caller passed in. -/
def Store : Type := Nat → List String

/-- `arr.push(x)` on the array at reference `r`. -/
def storePush (s : Store) (r : Nat) (x : String) : Store :=
  fun q => if q = r then s r ++ [x] else s q

/-- Constructor lines 65-67 over the heap: mutates the caller's array in
place and stores the same reference in `this.scopes`.  Returns the updated
heap and the reference held by `this.scopes`. -/
def constructorScopes (s : Store) (r : Nat) : Store × Nat :=
  let s1 := if (s r).contains "profile" then s else storePush s r "profile"
  let s2 := if (s1 r).contains "email" then s1 else storePush s1 r "email"
  (s2, r)

/-! ### Authorization URL (generateAuthUrl, lines 84-97) -/

/-- Uppercase hex digit. -/
def hexDigitChar (n : Nat) : Char :=
  if n < 10 then Char.ofNat (48 + n) else Char.ofNat (55 + n)

/-- Two-digit uppercase hex rendering of a byte. -/
def byteHex (b : Nat) : String :=
  String.mk [hexDigitChar (b / 16), hexDigitChar (b % 16)]

/-- UTF-8 bytes of a code point. -/
def utf8Bytes (c : Char) : List Nat :=
  let n := c.toNat
  if n < 128 then [n]
  else if n < 2048 then [192 + n / 64, 128 + n % 64]
  else if n < 65536 then [224 + n / 4096, 128 + (n / 64) % 64, 128 + n % 64]
  else [240 + n / 262144, 128 + (n / 4096) % 64, 128 + (n / 64) % 64, 128 + n % 64]

/-- Characters `querystring.escape` leaves unescaped (as
`encodeURIComponent`): ASCII alphanumerics and `-_.!~*'()`. -/
def isQSUnreserved (c : Char) : Bool :=
  c.isAlphanum || c ∈ ['-', '_', '.', '!', '~', '*', Char.ofNat 39, '(', ')']

/-- `querystring.escape` of one character. -/
def escapeChar (c : Char) : String :=
  if isQSUnreserved c then String.singleton c
  else String.join ((utf8Bytes c).map (fun b => "%" ++ byteHex b))

/-- Node `querystring.escape` (percent-encoding as `encodeURIComponent`). -/
def qsEscape (s : String) : String :=
  String.join (s.data.map escapeChar)

/-- Node `querystring.stringify`: pairs rendered `key=value` with both sides
escaped, joined by `&`. -/
def qsStringify (pairs : List (String × String)) : String :=
  String.intercalate "&" (pairs.map (fun p => qsEscape p.1 ++ "=" ++ qsEscape p.2))

/-- Lines 84-97.  The base authorization URL is produced by the external
`oauth2Client.generateAuthUrl` call (google-auth-library) and is taken here
as a parameter.  When `forceAddSession` is set, the result is
`https://accounts.google.com/AddSession?` followed by
`stringify({ continue: url })`. -/
def generateAuthUrl (baseUrl : String) (forceAddSession : Bool) : String :=
  if forceAddSession then
    "https://accounts.google.com/AddSession?" ++ qsStringify [("continue", baseUrl)]
  else baseUrl

/-! ### External OAuth client and the token flow (lines 159-174, 74-76) -/

/-- Modelled from the spec: the TokenBundle returned by the external
token-exchange capability (google-auth-library `Credentials`); the core
"only routes it, never inspects its shape", so the exact fields are
immaterial. -/
structure Credentials where
  access_token : Option String := none
  refresh_token : Option String := none
deriving DecidableEq, Repr

/-- Modelled from the spec: the credential store of the external
`OAuth2Client` capability (`setCredentials` records the bundle as the
current credentials). -/
structure OAuth2ClientState where
  credentials : Option Credentials := none
deriving DecidableEq, Repr

/-- The error classes a flow attempt can settle with:
`userClosedWindow` is the dedicated `UserClosedWindowError` class of
lines 12-16; `thrown` is a generic `Error(message)` thrown at lines 140/142;
`exchangeRejected` is a rejection propagated verbatim from the external
`getToken` call (lines 163-164). -/
inductive FlowError
  | userClosedWindow
  | thrown (message : String)
  | exchangeRejected (e : String)
deriving DecidableEq, Repr

/-- Modelled from the spec: how `LoopbackRedirectServer.waitForRedirection`
settles (`src/LoopbackRedirectServer.ts` is not under src/).  It resolves with
the full redirected URL when the callback path is hit, and rejects with the
dedicated cancellation signal (`UserClosedWindowError`) when the session is
closed before a redirect is captured. -/
inductive ListenerResult
  | redirect (u : String)
  | canceled
deriving DecidableEq, Repr

/-- Observable events of one flow attempt: invoking the external token
exchange with a code, and publishing a token bundle on the coordinator's
`tokens` channel (the constructor at lines 74-76 republishes every `tokens`
event of the underlying client). -/
inductive FlowEvent
  | exchangeInvoked (code : String)
  | tokensPublished (t : Credentials)
deriving DecidableEq, Repr

/-- Recognizes a publication on the `tokens` channel. -/
def isTokensPublished : FlowEvent → Bool
  | .tokensPublished _ => true
  | _ => false

/-- Lines 118-152 (`openAuthPageAndGetAuthorizationCode`), given how the
awaited `waitForRedirection` settled: a cancellation rejection propagates;
a captured redirect URL is parsed as at lines 138-152. -/
def openAuthPageAndGetAuthorizationCode : ListenerResult → Except FlowError String
  | .canceled => .error .userClosedWindow
  | .redirect u =>
    match extract u with
    | .denied reason => .error (.thrown reason)
    | .malformed => .error (.thrown "Unknown")
    | .code c => .ok c

/-- Lines 159-170 (`openAuthWindowAndGetTokens`).  `getToken` is the external
token-exchange capability; modelled from the spec, a successful `getToken`
publishes the returned bundle once on the client's `tokens` event, which the
constructor handler (lines 74-76) re-emits on the coordinator's channel.  On
success the coordinator records the bundle via `setCredentials` and returns
it.  The result is the settled value of the returned promise, the updated
client state, and the list of observable events in order. -/
def openAuthWindowAndGetTokens (client : OAuth2ClientState)
    (listener : ListenerResult) (getToken : String → Except String Credentials) :
    Except FlowError Credentials × OAuth2ClientState × List FlowEvent :=
  match openAuthPageAndGetAuthorizationCode listener with
  | .error e => (.error e, client, [])
  | .ok code =>
    match getToken code with
    | .error e => (.error (.exchangeRejected e), client, [.exchangeInvoked code])
    | .ok tokens =>
      (.ok tokens, { client with credentials := some tokens },
        [.exchangeInvoked code, .tokensPublished tokens])

/-- Lines 172-174: `setTokens(tokens)` is
`this.oauth2Client.setCredentials(tokens)` and nothing else. -/
def setTokens (client : OAuth2ClientState) (tokens : Credentials) : OAuth2ClientState :=
  { client with credentials := some tokens }

/-! ### Listener lifecycle (lines 118-136) -/

/-- Socket-level events of the loopback listener, identified by session id:
`closed` means the socket is released (and any pending wait settled),
`bound` means a new listener socket is bound to the port. -/
inductive SrvEvent
  | closed (id : Nat)
  | bound (id : Nat)
deriving DecidableEq, Repr

/-- Set of currently bound listener sessions after an event. -/
def applySrv (live : List Nat) : SrvEvent → List Nat
  | .closed i => live.erase i
  | .bound i => i :: live

/-- Lines 119-129: if `this.server` is set, `await this.server.close()` (the
old socket is fully released before execution continues), then a new
`LoopbackRedirectServer` is constructed and bound.  Returns the new value of
`this.server` and the socket events in program order. -/
def superseedAndBind (server : Option Nat) (fresh : Nat) : Option Nat × List SrvEvent :=
  match server with
  | some old => (some fresh, [.closed old, .bound fresh])
  | none => (some fresh, [.bound fresh])

/-- The coordinator steps that touch `this.server`: starting an
authorization attempt (lines 119-129), and the listener resolving a
redirect, after which `waitForRedirection` has closed the server and line 136
clears the field. -/
inductive FlowStep
  | attemptStart (fresh : Nat)
  | redirectCaptured
deriving DecidableEq, Repr

/-- One coordinator step over `this.server`, with its socket events. -/
def stepServer : Option Nat → FlowStep → Option Nat × List SrvEvent
  | server, .attemptStart f => superseedAndBind server f
  | some i, .redirectCaptured => (none, [.closed i])
  | none, .redirectCaptured => (none, [])

/-- Run a sequence of coordinator steps, accumulating socket events. -/
def runSteps : Option Nat → List FlowStep → Option Nat × List SrvEvent
  | s, [] => (s, [])
  | s, st :: rest =>
    ((runSteps (stepServer s st).1 rest).1,
      (stepServer s st).2 ++ (runSteps (stepServer s st).1 rest).2)

/-- At every point of the event trace (before, between and after events), at
most one listener session is bound. -/
def livesOk : List Nat → List SrvEvent → Prop
  | live, [] => live.length ≤ 1
  | live, e :: es => live.length ≤ 1 ∧ livesOk (applySrv live e) es

/-- The bound-session list corresponding to a `this.server` value. -/
def optList : Option Nat → List Nat
  | none => []
  | some i => [i]

/-! ### Helper lemmas -/

/-- Whenever the parsed query holds a truthy `error` value, line 140 throws
`Error(parsed.query.error_description)`: the reason is the
`error_description` value alone (empty when absent), with no fallback to the
`error` value. -/
theorem extract_denied_of_error (u e : String)
    (he : (parseQuery u).lookup "error" = some e) (hne : e ≠ "") :
    extract u = .denied (((parseQuery u).lookup "error_description").getD "") := by
  simp only [extract]
  rw [he]
  simp [truthy, hne]

/-- Normalization appends at least one scope when `profile` or `email` is
missing, so the result is strictly longer than the input. -/
theorem normalizeScopes_length_lt (scopes : List String)
    (h : "profile" ∉ scopes ∨ "email" ∉ scopes) :
    scopes.length < (normalizeScopes scopes).length := by
  unfold normalizeScopes
  have hep : ("email" : String) ≠ "profile" := by decide
  by_cases hp : "profile" ∈ scopes <;> by_cases hme : "email" ∈ scopes <;>
    simp [hp, hme, hep] at h ⊢

end ElectronGoogleOAuth2

namespace ElectronGoogleOAuth2

/-! ### Claim theorems -/

/-- C2 (counterexample): for the redirect URL
`http://127.0.0.1:42813/callback?error=access_denied` (an `error` parameter
but no `error_description`), extraction yields `denied ""` — it does not fall
back to the `error` value `access_denied` as the claim states. -/
theorem C2_counterexample :
    extract "http://127.0.0.1:42813/callback?error=access_denied"
      ≠ RedirectOutcome.denied "access_denied"
    ∧ extract "http://127.0.0.1:42813/callback?error=access_denied"
      = RedirectOutcome.denied "" := by
  constructor
  · decide
  · decide

/-- C2 (amended): for every captured redirect URL whose query string contains
a non-empty `error` parameter, extraction yields `denied` with reason the
`error_description` value (the empty string when `error_description` is
absent; never the `error` value), even if a `code` parameter is also
present in the same query string. -/
theorem C2_error_takes_precedence (u e : String)
    (he : (parseQuery u).lookup "error" = some e) (hne : e ≠ "") :
    extract u = .denied (((parseQuery u).lookup "error_description").getD "") :=
  extract_denied_of_error u e he hne

/-- C2 (witness): a redirect URL carrying `error`, `error_description` and a
`code` parameter extracts to `denied "User denied"`. -/
theorem C2_error_takes_precedence_witness :
    extract "http://127.0.0.1:42813/callback?error=access_denied&error_description=User+denied&code=ABC123"
      = RedirectOutcome.denied "User denied" := by
  have h := C2_error_takes_precedence
    "http://127.0.0.1:42813/callback?error=access_denied&error_description=User+denied&code=ABC123"
    "access_denied" (by decide) (by decide)
  rw [h]
  rfl

/-- C3 (counterexample): the redirect URL
`http://127.0.0.1:42813/callback?code=` contains a `code` parameter (with
value `""`), yet extraction yields `malformed` (line 141 tests JavaScript
truthiness, so the empty code falls into the `Error('Unknown')` branch) —
not success with that code string as the claim states. -/
theorem C3_counterexample :
    (parseQuery "http://127.0.0.1:42813/callback?code=").lookup "code" = some ""
    ∧ extract "http://127.0.0.1:42813/callback?code=" = RedirectOutcome.malformed
    ∧ RedirectOutcome.malformed ≠ RedirectOutcome.code "" := by
  refine ⟨by decide, by decide, by decide⟩

/-- C3 (amended): for every captured redirect URL with no truthy `error`
parameter: if the query string contains a non-empty `code` parameter,
extraction succeeds with exactly that code string; if both `code` and `error`
are absent or empty, extraction yields `malformed`. -/
theorem C3_code_extraction (u : String)
    (herr : truthy ((parseQuery u).lookup "error") = false) :
    (∀ c : String, (parseQuery u).lookup "code" = some c → c ≠ "" →
      extract u = .code c)
    ∧ (truthy ((parseQuery u).lookup "code") = false →
      extract u = .malformed) := by
  constructor
  · intro c hc hne
    simp only [extract]
    rw [herr, hc]
    simp [truthy, hne]
  · intro hcode
    simp only [extract]
    rw [herr, hcode]
    simp

/-- C3 (witness): a redirect URL carrying `code=ABC123` extracts to
`code "ABC123"`, and one carrying neither parameter extracts to `malformed`. -/
theorem C3_code_extraction_witness :
    extract "http://127.0.0.1:42813/callback?code=ABC123"
      = RedirectOutcome.code "ABC123"
    ∧ extract "http://127.0.0.1:42813/callback" = RedirectOutcome.malformed := by
  refine ⟨(C3_code_extraction _ (by decide)).1 "ABC123" (by decide) (by decide),
    (C3_code_extraction _ (by decide)).2 (by decide)⟩

/-- C5: the normalized scope list always contains `profile` and `email`; the
caller-supplied list is a prefix of it (so caller order is preserved and the
defaults are appended after all caller entries); a list already containing
both is returned unchanged; and a list containing neither gets exactly
`profile` then `email` appended. -/
theorem C5_scopes_normalized (scopes : List String) :
    "profile" ∈ normalizeScopes scopes
    ∧ "email" ∈ normalizeScopes scopes
    ∧ scopes <+: normalizeScopes scopes
    ∧ ("profile" ∈ scopes → "email" ∈ scopes → normalizeScopes scopes = scopes)
    ∧ ("profile" ∉ scopes → "email" ∉ scopes →
        normalizeScopes scopes = scopes ++ ["profile", "email"]) := by
  have hep : ("email" : String) ≠ "profile" := by decide
  unfold normalizeScopes
  by_cases hp : "profile" ∈ scopes <;> by_cases hme : "email" ∈ scopes <;>
    simp [hp, hme, hep, List.append_assoc, List.prefix_append]

/-- C5 (witness): `["calendar"]` normalizes to
`["calendar", "profile", "email"]`. -/
theorem C5_scopes_normalized_witness :
    normalizeScopes ["calendar"] = ["calendar", "profile", "email"] :=
  (C5_scopes_normalized ["calendar"]).2.2.2.2 (by decide) (by decide)

/-- C6: `generateAuthUrl` with `forceAddSession = true` returns exactly
`https://accounts.google.com/AddSession?continue=` followed by the
URL-encoded base authorization URL; with `forceAddSession = false` it
returns the base URL unmodified. -/
theorem C6_generateAuthUrl (baseUrl : String) :
    generateAuthUrl baseUrl true
      = "https://accounts.google.com/AddSession?continue=" ++ qsEscape baseUrl
    ∧ generateAuthUrl baseUrl false = baseUrl := by
  constructor
  · show "https://accounts.google.com/AddSession?"
        ++ (qsEscape "continue" ++ "=" ++ qsEscape baseUrl) = _
    rw [show qsEscape "continue" ++ "=" = "continue=" by decide,
      ← String.append_assoc,
      show ("https://accounts.google.com/AddSession?" ++ "continue=" : String)
        = "https://accounts.google.com/AddSession?continue=" by decide]
  · rfl

/-- C9: `setTokens(bundle)` followed immediately by a read of the client's
current credentials returns that same bundle unchanged — a pure passthrough
to `oauth2Client.setCredentials`. -/
theorem C9_setTokens_roundtrip (client : OAuth2ClientState) (bundle : Credentials) :
    (setTokens client bundle).credentials = some bundle := rfl

/-- C10: the constructor mutates the caller-supplied scopes array in place:
`this.scopes` holds the very reference the caller passed (aliasing, no
copy); after construction the caller's own array holds the normalized list,
so whenever `profile` or `email` was missing the caller's array has changed;
all other heap arrays are untouched. -/
theorem C10_constructor_aliases_scopes (s : Store) (r : Nat) :
    (constructorScopes s r).2 = r
    ∧ (constructorScopes s r).1 r = normalizeScopes (s r)
    ∧ (("profile" ∉ s r ∨ "email" ∉ s r) → (constructorScopes s r).1 r ≠ s r)
    ∧ (∀ q : Nat, q ≠ r → (constructorScopes s r).1 q = s q) := by
  have hep : ("email" : String) ≠ "profile" := by decide
  have hval : (constructorScopes s r).1 r = normalizeScopes (s r) := by
    unfold constructorScopes normalizeScopes
    by_cases hp : "profile" ∈ s r <;> by_cases hme : "email" ∈ s r <;>
      simp [hp, hme, hep, storePush]
  refine ⟨rfl, hval, ?_, ?_⟩
  · intro hmiss heq
    have hlt := normalizeScopes_length_lt (s r) hmiss
    rw [← hval, heq] at hlt
    omega
  · intro q hq
    simp only [constructorScopes]
    split <;> split <;> simp [storePush, hq]

/-- C10 (witness): constructing with the array `["calendar"]` at reference 0
mutates that very array (it no longer equals `["calendar"]`), and
`this.scopes` is reference 0 itself. -/
theorem C10_constructor_aliases_scopes_witness :
    (constructorScopes (fun _ => ["calendar"]) 0).1 0 ≠ ["calendar"]
    ∧ (constructorScopes (fun _ => ["calendar"]) 0).2 = 0 :=
  ⟨(C10_constructor_aliases_scopes (fun _ => ["calendar"]) 0).2.2.1 (Or.inl (by decide)),
    (C10_constructor_aliases_scopes (fun _ => ["calendar"]) 0).1⟩

/-- C4: when the listener session is closed before a redirect is captured,
the pending attempt settles (with the `UserClosedWindowError` rejection
propagated by the awaited `waitForRedirection`), the client state is
untouched and nothing is published; the user-canceled condition is a
dedicated error class, distinguishable from every generic thrown error and
from every exchange rejection. -/
theorem C4_canceled_settles_distinguishably (client : OAuth2ClientState)
    (getToken : String → Except String Credentials) :
    openAuthWindowAndGetTokens client .canceled getToken
      = (.error .userClosedWindow, client, [])
    ∧ (∀ m : String, FlowError.userClosedWindow ≠ FlowError.thrown m)
    ∧ (∀ e : String, FlowError.userClosedWindow ≠ FlowError.exchangeRejected e) := by
  refine ⟨rfl, fun m h => ?_, fun e h => ?_⟩ <;> cases h

/-- C4 (witness): a concrete canceled attempt settles with
`userClosedWindow`, an unchanged client and no events. -/
theorem C4_canceled_settles_distinguishably_witness :
    openAuthWindowAndGetTokens { credentials := none } ListenerResult.canceled
        (fun _ => Except.error "network")
      = (Except.error FlowError.userClosedWindow, { credentials := none }, []) :=
  (C4_canceled_settles_distinguishably { credentials := none }
    (fun _ => Except.error "network")).1

/-- C7: whenever the captured redirect extracts to a code and the external
token exchange succeeds with a bundle, the attempt returns that bundle, the
bundle is recorded as the client's current credentials, and the bundle is
published exactly once on the `tokens` channel. -/
theorem C7_success_records_and_publishes_once (client : OAuth2ClientState)
    (u : String) (getToken : String → Except String Credentials)
    (c : String) (t : Credentials)
    (hcode : extract u = .code c) (hexch : getToken c = .ok t) :
    openAuthWindowAndGetTokens client (.redirect u) getToken
      = (.ok t, { client with credentials := some t },
          [.exchangeInvoked c, .tokensPublished t])
    ∧ ((openAuthWindowAndGetTokens client (.redirect u) getToken).2.2.filter
        isTokensPublished) = [.tokensPublished t] := by
  have h1 : openAuthPageAndGetAuthorizationCode (.redirect u) = .ok c := by
    simp [openAuthPageAndGetAuthorizationCode, hcode]
  constructor
  · simp [openAuthWindowAndGetTokens, h1, hexch]
  · simp [openAuthWindowAndGetTokens, h1, hexch, isTokensPublished]

/-- C7 (witness): the spec's end-to-end scenario — redirect with `code=XYZ`
and an exchange returning `{access_token: "a", refresh_token: "r"}` —
settles with that bundle; it is stored, returned, and published once. -/
theorem C7_success_records_and_publishes_once_witness :
    openAuthWindowAndGetTokens { credentials := none }
        (ListenerResult.redirect "http://127.0.0.1:42813/callback?code=XYZ")
        (fun _ => Except.ok { access_token := some "a", refresh_token := some "r" })
      = (Except.ok { access_token := some "a", refresh_token := some "r" },
          { credentials := some { access_token := some "a", refresh_token := some "r" } },
          [FlowEvent.exchangeInvoked "XYZ",
            FlowEvent.tokensPublished { access_token := some "a", refresh_token := some "r" }]) :=
  (C7_success_records_and_publishes_once { credentials := none }
    "http://127.0.0.1:42813/callback?code=XYZ"
    (fun _ => Except.ok { access_token := some "a", refresh_token := some "r" })
    "XYZ" { access_token := some "a", refresh_token := some "r" }
    (by decide) rfl).1

/-- C8 (counterexample): on the redirect
`http://127.0.0.1:42813/callback?error=access_denied` (no
`error_description`), the attempt settles with reason `""` — which does not
contain the provider's error information `access_denied` — though indeed no
exchange is invoked, nothing is published and the credentials are
unchanged. -/
theorem C8_counterexample :
    openAuthWindowAndGetTokens { credentials := none }
        (ListenerResult.redirect "http://127.0.0.1:42813/callback?error=access_denied")
        (fun _ => Except.ok { access_token := some "a", refresh_token := none })
      = (Except.error (FlowError.thrown ""), { credentials := none }, [])
    ∧ ¬ "access_denied".data <:+: "".data := by
  refine ⟨rfl, by decide⟩

/-- C8 (amended): for every flow attempt whose captured redirect carries a
non-empty `error` parameter, the attempt settles as failed with reason the
`error_description` value (empty when absent — not necessarily containing
the `error` value), no token exchange is invoked, no `tokens` event is
published, and the stored credentials are unchanged. -/
theorem C8_error_redirect_fails_without_exchange (client : OAuth2ClientState)
    (u : String) (getToken : String → Except String Credentials) (e : String)
    (he : (parseQuery u).lookup "error" = some e) (hne : e ≠ "") :
    openAuthWindowAndGetTokens client (.redirect u) getToken
      = (.error (.thrown (((parseQuery u).lookup "error_description").getD "")),
          client, []) := by
  have hx := extract_denied_of_error u e he hne
  simp [openAuthWindowAndGetTokens, openAuthPageAndGetAuthorizationCode, hx]

/-- C8 (witness): a denied redirect with an `error_description` settles with
that description as the reason, an unchanged client and no events. -/
theorem C8_error_redirect_fails_without_exchange_witness :
    openAuthWindowAndGetTokens { credentials := none }
        (ListenerResult.redirect
          "http://127.0.0.1:42813/callback?error=access_denied&error_description=User+denied")
        (fun _ => Except.ok { access_token := some "a", refresh_token := none })
      = (Except.error (FlowError.thrown "User denied"), { credentials := none }, []) := by
  have h := C8_error_redirect_fails_without_exchange { credentials := none }
    "http://127.0.0.1:42813/callback?error=access_denied&error_description=User+denied"
    (fun _ => Except.ok { access_token := some "a", refresh_token := none })
    "access_denied" (by decide) (by decide)
  rw [h]
  rfl

end ElectronGoogleOAuth2

namespace ElectronGoogleOAuth2

/-- Auxiliary invariant: starting from any consistent `this.server` value,
every point of the socket-event trace produced by a sequence of coordinator
steps has at most one bound listener. -/
theorem livesOk_runSteps (steps : List FlowStep) :
    ∀ s : Option Nat, livesOk (optList s) (runSteps s steps).2 := by
  induction steps with
  | nil =>
    intro s
    cases s <;> simp [runSteps, livesOk, optList]
  | cons st rest ih =>
    intro s
    cases st with
    | attemptStart f =>
      cases s with
      | none =>
        simpa [runSteps, stepServer, superseedAndBind, livesOk, applySrv, optList]
          using ih (some f)
      | some old =>
        simpa [runSteps, stepServer, superseedAndBind, livesOk, applySrv, optList]
          using ih (some f)
    | redirectCaptured =>
      cases s with
      | none =>
        simpa [runSteps, stepServer, livesOk, applySrv, optList] using ih none
      | some i =>
        simpa [runSteps, stepServer, livesOk, applySrv, optList] using ih none

/-- C1: along any sequence of coordinator steps starting with no listener,
at most one listener session is bound at every point of the socket-event
trace; and whenever an attempt starts while a previous session exists, the
emitted events are exactly the close of the old session followed by the bind
of the new one — the old socket is fully released (awaited) before the new
listener is constructed and bound. -/
theorem C1_at_most_one_listener :
    (∀ steps : List FlowStep, livesOk [] (runSteps none steps).2)
    ∧ ∀ old fresh : Nat,
        superseedAndBind (some old) fresh
          = (some fresh, [SrvEvent.closed old, SrvEvent.bound fresh]) :=
  ⟨fun steps => livesOk_runSteps steps none, fun _ _ => rfl⟩

end ElectronGoogleOAuth2
